import Mathlib

/-!
Shallow embedding of the lead-nurturing / campaign-scheduling subsystem of
`backend/modules/lead_nurturing.py` (class `LeadNurturing`), together with the
dispatcher result contract of `backend/modules/email_sms_automation.py`.

Modelling conventions:
* Python dicts (`self.leads`, `self.campaigns`, `self.campaign_templates`)
  become association lists `List (String × V)`; `alookup` is `d[k]` lookup and
  `aset` is `d[k] = v` (replace in place, else append — Python dict order).
* `datetime.now()` becomes an explicit `now : Nat` parameter; `timedelta(days=d)`
  becomes `+ d` on the same clock.
* A raised Python exception becomes `Except.error msg`; a `try/except` block
  becomes a `match` on the `Except` value.
* The messaging collaborator (`EmailSMSAutomation.send_email` / `send_sms`)
  is an abstract `Messaging` record whose methods may either return a result
  dict (`DispatchResult`) or raise (`Except.error`), per the dispatcher
  contract.
-/

namespace LeadNurturing

/-- Campaign lifecycle status strings used by `lead_nurturing.py`
("active" / "paused" / "completed" / "failed"). -/
inductive Status where
  | active
  | paused
  | completed
  | failed
  deriving DecidableEq, Repr

/-- Render a status as the string the source stores. -/
def Status.str : Status → String
  | Status.active => "active"
  | Status.paused => "paused"
  | Status.completed => "completed"
  | Status.failed => "failed"

/-- One step of a campaign template, as in the template JSON /
`_get_default_templates`. -/
structure Step where
  delay_days : Nat
  channel : String
  template : String
  subject : String
  content : String
  deriving DecidableEq, Repr

/-- A campaign template: a display name and an ordered step list. -/
structure Template where
  name : String
  steps : List Step
  deriving DecidableEq, Repr

/-- The result dict returned by `send_email` / `send_sms`:
`{"success": bool, ...}` (detail collapses the remaining keys). -/
structure DispatchResult where
  success : Bool
  detail : String
  deriving DecidableEq, Repr

/-- The `message_data` dict built in `_execute_campaign_step`. -/
structure MessageData where
  name : String
  email : String
  phone : String
  deriving DecidableEq, Repr

/-- The messaging collaborator: `send_email(to, subject, content, template, data)`
and `send_sms(to, content, template, data)`; either returns a result dict or
raises. -/
structure Messaging where
  send_email : String → String → String → String → MessageData → Except String DispatchResult
  send_sms : String → String → String → MessageData → Except String DispatchResult

/-- One entry of a campaign's `completed_steps` log. -/
structure CompletedStep where
  step : Nat
  executed_at : Nat
  success : Bool
  details : DispatchResult
  deriving DecidableEq, Repr

/-- One entry of a lead's `campaign_history` list. -/
structure HistoryEntry where
  campaign_id : String
  template : String
  started_at : Nat
  status : Status
  completed_at : Option Nat := none
  deriving DecidableEq, Repr

/-- A lead record as written by `nurture_lead`. -/
structure Lead where
  email : String
  name : String
  phone : String
  source : String
  status : String
  created_at : Nat
  last_contact : Option Nat
  engagement_score : Nat
  campaign_history : List HistoryEntry
  deriving DecidableEq, Repr

/-- A campaign instance as created by `_start_campaign` and mutated by
`_execute_campaign_step` / `pause_campaign` / `resume_campaign`. -/
structure Campaign where
  lead_id : String
  template : String
  status : Status
  current_step : Nat
  started_at : Nat
  next_action_at : Nat
  completed_steps : List CompletedStep
  paused_at : Option Nat := none
  resumed_at : Option Nat := none
  error : Option String := none
  deriving DecidableEq, Repr

/-- The mutable state of a `LeadNurturing` object: the template store and the
two "databases" `self.leads` and `self.campaigns`. -/
structure NurturingState where
  campaign_templates : List (String × Template)
  leads : List (String × Lead)
  campaigns : List (String × Campaign)
  deriving DecidableEq, Repr

/-- Dict lookup `d[k]` on an association list (first binding wins). -/
def alookup {V : Type} : List (String × V) → String → Option V
  | [], _ => none
  | (k, v) :: t, key => if k = key then some v else alookup t key

/-- Dict assignment `d[k] = v`: replace the first binding of `k` in place,
or append a new binding at the end (Python dict insertion order). -/
def aset {V : Type} : List (String × V) → String → V → List (String × V)
  | [], key, v => [(key, v)]
  | (k, w) :: t, key, v =>
      if k = key then (key, v) :: t else (k, w) :: aset t key v

/-- The input dict accepted by `nurture_lead`: `id` and `email` are accessed
unconditionally; the rest default via `.get`. -/
structure LeadData where
  id : String
  email : String
  name : Option String := none
  phone : Option String := none
  source : Option String := none
  status : Option String := none
  deriving DecidableEq, Repr

/-- The lead record `nurture_lead` writes into `self.leads[lead_id]`. -/
def freshLead (ld : LeadData) (now : Nat) : Lead :=
  { email := ld.email
    name := ld.name.getD ""
    phone := ld.phone.getD ""
    source := ld.source.getD "unknown"
    status := ld.status.getD "new"
    created_at := now
    last_contact := none
    engagement_score := 0
    campaign_history := [] }

/-- `_start_campaign(lead_id, campaign_template)`: raises on an unknown
template name, otherwise creates the campaign instance and appends to the
lead's campaign history, returning the new campaign id. -/
def startCampaign (st : NurturingState) (lead_id tname : String) (now : Nat) :
    Except String (NurturingState × String) :=
  if (alookup st.campaign_templates tname).isNone then
    Except.error ("Invalid campaign template: " ++ tname)
  else
    match alookup st.leads lead_id with
    | none => Except.error ("KeyError: " ++ lead_id)
    | some lead =>
      let cid := "campaign_" ++ lead_id ++ "_" ++ toString (lead.campaign_history.length + 1)
      let camp : Campaign :=
        { lead_id := lead_id
          template := tname
          status := Status.active
          current_step := 0
          started_at := now
          next_action_at := now
          completed_steps := [] }
      let entry : HistoryEntry :=
        { campaign_id := cid, template := tname, started_at := now, status := Status.active }
      let lead1 := { lead with campaign_history := lead.campaign_history ++ [entry] }
      Except.ok
        ({ st with campaigns := aset st.campaigns cid camp
                   leads := aset st.leads lead_id lead1 }, cid)

/-- The response dict of `nurture_lead`. -/
structure NurtureResponse where
  success : Bool
  lead_id : Option String := none
  campaign_id : Option String := none
  error : Option String := none
  deriving DecidableEq, Repr

/-- `nurture_lead(lead_data)`: writes `self.leads[lead_id]` unconditionally,
then starts the `"welcome_series"` campaign; a raise from `_start_campaign`
is caught and turned into a `success=false` response, but the lead write
already performed is kept (in-place dict mutation). -/
def nurtureLead (st : NurturingState) (ld : LeadData) (now : Nat) :
    NurturingState × NurtureResponse :=
  let st1 := { st with leads := aset st.leads ld.id (freshLead ld now) }
  match startCampaign st1 ld.id "welcome_series" now with
  | Except.ok (st2, cid) =>
      (st2, { success := true, lead_id := some ld.id, campaign_id := some cid })
  | Except.error e =>
      (st1, { success := false, error := some e })

/-- Fallback step used for an index known to be in range (see
`executeStepCore`: the index read at line 284 of the source is guarded by the
preceding length check, so this default is never selected). -/
def defaultStep : Step :=
  { delay_days := 0, channel := "", template := "", subject := "", content := "" }

/-- The dispatch call of `_execute_campaign_step`: branch on the step's
`type` field; when the type is neither `"email"` nor `"sms"`, the local
`result` is unbound and the subsequent `result["success"]` access raises
`NameError`. -/
def dispatchStep (msg : Messaging) (lead : Lead) (s : Step) :
    Except String DispatchResult :=
  let data : MessageData := { name := lead.name, email := lead.email, phone := lead.phone }
  if s.channel = "email" then
    msg.send_email lead.email s.subject s.content s.template data
  else if s.channel = "sms" then
    msg.send_sms lead.phone s.content s.template data
  else
    Except.error "NameError: name result is not defined"

/-- The body of the `try` block of `_execute_campaign_step`: each failing dict
or list access, and a raising dispatcher call, surface as `Except.error`.
All errors occur before the first mutation, so the error case carries no
partial state. On normal completion: append to `completed_steps`, increment
`current_step` unconditionally, then either complete the campaign (with the
lead-history update) or schedule the next step, update `last_contact`, and
bump `engagement_score` when the dispatch succeeded. -/
def executeStepCore (msg : Messaging) (now : Nat) (st : NurturingState)
    (cid : String) : Except String NurturingState :=
  match alookup st.campaigns cid with
  | none => Except.error ("KeyError: " ++ cid)
  | some campaign =>
  match alookup st.leads campaign.lead_id with
  | none => Except.error ("KeyError: " ++ campaign.lead_id)
  | some lead =>
  match alookup st.campaign_templates campaign.template with
  | none => Except.error ("KeyError: " ++ campaign.template)
  | some tpl =>
  match tpl.steps[campaign.current_step]? with
  | none => Except.error "IndexError: list index out of range"
  | some step =>
  match dispatchStep msg lead step with
  | Except.error e => Except.error e
  | Except.ok result =>
    let entry : CompletedStep :=
      { step := campaign.current_step, executed_at := now
        success := result.success, details := result }
    let c1 := { campaign with
                  completed_steps := campaign.completed_steps ++ [entry]
                  current_step := campaign.current_step + 1 }
    let (c2, lead1) :=
      if tpl.steps.length ≤ c1.current_step then
        ({ c1 with status := Status.completed },
         { lead with campaign_history := lead.campaign_history.map (fun h =>
             if h.campaign_id = cid then
               { h with status := Status.completed, completed_at := some now }
             else h) })
      else
        ({ c1 with next_action_at :=
             now + (tpl.steps.getD c1.current_step defaultStep).delay_days },
         lead)
    let lead2 := { lead1 with last_contact := some now }
    let lead3 :=
      if result.success then
        { lead2 with engagement_score := lead2.engagement_score + 1 }
      else lead2
    Except.ok { st with campaigns := aset st.campaigns cid c2
                        leads := aset st.leads campaign.lead_id lead3 }

/-- `_execute_campaign_step` with its `except` clause: a raise from the body is
caught and the campaign is marked `failed` with the error recorded. When the
initial `self.campaigns[campaign_id]` lookup itself raised, the handler's
`campaign["status"] = "failed"` hits an unbound local and the resulting
exception propagates (`Except.error`); processable campaigns always return
`Except.ok`. -/
def executeCampaignStep (msg : Messaging) (now : Nat) (st : NurturingState)
    (cid : String) : Except String NurturingState :=
  match executeStepCore msg now st cid with
  | Except.ok st2 => Except.ok st2
  | Except.error e =>
    match alookup st.campaigns cid with
    | some c =>
        let c1 := { c with status := Status.failed, error := some e }
        Except.ok { st with campaigns := aset st.campaigns cid c1 }
    | none => Except.error e

/-- The due test of `_process_campaigns`: status is `"active"` and
`next_action_at ≤ now`. -/
def isDue (now : Nat) (c : Campaign) : Bool :=
  decide (c.status = Status.active ∧ c.next_action_at ≤ now)

/-- The `for campaign_id, campaign in self.campaigns.items()` loop of one
iteration of `_process_campaigns`: process each due campaign in dict order;
an exception escaping `_execute_campaign_step` aborts the remaining
iterations of this pass (`Except.error` carries the state mutated so far).
Executing a step never adds or removes campaign keys, so the `none` lookup
case cannot arise for keys drawn from the dict itself. -/
def tickAux (msg : Messaging) (now : Nat) :
    List String → NurturingState → Except (String × NurturingState) NurturingState
  | [], st => Except.ok st
  | cid :: rest, st =>
    match alookup st.campaigns cid with
    | none => tickAux msg now rest st
    | some c =>
      if isDue now c then
        match executeCampaignStep msg now st cid with
        | Except.ok st2 => tickAux msg now rest st2
        | Except.error e => Except.error (e, st)
      else tickAux msg now rest st

/-- One iteration of the `while self.processing` loop of `_process_campaigns`:
any exception escaping the campaign loop is caught by the loop's own
`except`, which logs and sleeps; the state mutated so far is kept either way
and the loop continues at the next interval. -/
def processTick (msg : Messaging) (now : Nat) (st : NurturingState) : NurturingState :=
  match tickAux msg now (st.campaigns.map Prod.fst) st with
  | Except.ok st2 => st2
  | Except.error (_, st2) => st2

/-- The response dict of `pause_campaign` / `resume_campaign`. -/
structure ControlResponse where
  success : Bool
  campaign_id : Option String := none
  status : Option Status := none
  error : Option String := none
  deriving DecidableEq, Repr

/-- `pause_campaign(campaign_id)`: unknown id or a raise inside the body is
caught and reported as `success=false`; only an `"active"` campaign is moved
to `"paused"` (with `paused_at` and the lead-history update); any other
status yields a `success=false` response and no mutation. -/
def pauseCampaign (st : NurturingState) (cid : String) (now : Nat) :
    NurturingState × ControlResponse :=
  match alookup st.campaigns cid with
  | none => (st, { success := false, error := some ("Campaign not found: " ++ cid) })
  | some campaign =>
    if campaign.status = Status.active then
      let c1 := { campaign with status := Status.paused, paused_at := some now }
      let st1 := { st with campaigns := aset st.campaigns cid c1 }
      match alookup st1.leads campaign.lead_id with
      | none =>
          -- the `self.leads[...]` access raises after the status write;
          -- the except clause reports failure but keeps the mutation
          (st1, { success := false, error := some ("KeyError: " ++ campaign.lead_id) })
      | some lead =>
        let lead1 := { lead with campaign_history := lead.campaign_history.map (fun h =>
            if h.campaign_id = cid then { h with status := Status.paused } else h) }
        ({ st1 with leads := aset st1.leads campaign.lead_id lead1 },
         { success := true, campaign_id := some cid, status := some Status.paused })
    else
      (st, { success := false
             error := some ("Campaign is not active (current status: "
                             ++ campaign.status.str ++ ")") })

/-- `resume_campaign(campaign_id)`: mirror image of `pause_campaign`, moving a
`"paused"` campaign back to `"active"` with `resumed_at` recorded. -/
def resumeCampaign (st : NurturingState) (cid : String) (now : Nat) :
    NurturingState × ControlResponse :=
  match alookup st.campaigns cid with
  | none => (st, { success := false, error := some ("Campaign not found: " ++ cid) })
  | some campaign =>
    if campaign.status = Status.paused then
      let c1 := { campaign with status := Status.active, resumed_at := some now }
      let st1 := { st with campaigns := aset st.campaigns cid c1 }
      match alookup st1.leads campaign.lead_id with
      | none =>
          (st1, { success := false, error := some ("KeyError: " ++ campaign.lead_id) })
      | some lead =>
        let lead1 := { lead with campaign_history := lead.campaign_history.map (fun h =>
            if h.campaign_id = cid then { h with status := Status.active } else h) }
        ({ st1 with leads := aset st1.leads campaign.lead_id lead1 },
         { success := true, campaign_id := some cid, status := some Status.active })
    else
      (st, { success := false
             error := some ("Campaign is not paused (current status: "
                             ++ campaign.status.str ++ ")") })

/-- The operations of the running system that touch campaign state: one engine
tick, an operator pause, an operator resume, and a new-lead registration. -/
inductive SysOp where
  | tick (msg : Messaging) (now : Nat)
  | pause (cid : String) (now : Nat)
  | resume (cid : String) (now : Nat)
  | nurture (ld : LeadData) (now : Nat)

/-- Apply one system operation to the state. -/
def applySysOp : SysOp → NurturingState → NurturingState
  | SysOp.tick msg now, st => processTick msg now st
  | SysOp.pause cid now, st => (pauseCampaign st cid now).1
  | SysOp.resume cid now, st => (resumeCampaign st cid now).1
  | SysOp.nurture ld now, st => (nurtureLead st ld now).1

/-- Run a sequence of system operations. -/
def runOps : List SysOp → NurturingState → NurturingState
  | [], st => st
  | op :: ops, st => runOps ops (applySysOp op st)

/-- The state of a fresh `LeadNurturing` object (no persisted data): loaded
templates, empty `self.leads` and `self.campaigns`. -/
def initState (tmpls : List (String × Template)) : NurturingState :=
  { campaign_templates := tmpls, leads := [], campaigns := [] }

/-- Run a sequence of engine ticks (a `(messaging, now)` pair per tick). -/
def runTicks : List (Messaging × Nat) → NurturingState → NurturingState
  | [], st => st
  | (msg, now) :: rest, st => runTicks rest (processTick msg now st)

/-! Concrete fixtures used by the counterexample and witness theorems. -/

/-- A two-step welcome template (a shortened `welcome_series` from
`_get_default_templates`). -/
def welcomeTpl : Template :=
  { name := "Welcome Series"
    steps :=
      [ { delay_days := 0, channel := "email", template := "welcome_email"
          subject := "Welcome!", content := "Hi, welcome aboard." }
      , { delay_days := 3, channel := "email", template := "getting_started"
          subject := "Getting Started", content := "Hi, some tips." } ] }

/-- A one-step welcome template (template stores are configuration-loaded, so
any step count can occur). -/
def welcomeTplOne : Template :=
  { name := "Welcome Series"
    steps :=
      [ { delay_days := 0, channel := "email", template := "welcome_email"
          subject := "Welcome!", content := "Hi, welcome aboard." } ] }

/-- Template store holding the two-step welcome template. -/
def demoTemplates : List (String × Template) := [("welcome_series", welcomeTpl)]

/-- Template store holding the one-step welcome template. -/
def demoTemplatesOne : List (String × Template) := [("welcome_series", welcomeTplOne)]

/-- A lead registration input. -/
def demoLeadData : LeadData := { id := "L1", email := "ann@example.com", name := some "Ann" }

/-- A dispatcher whose sends always report success. -/
def msgOk : Messaging :=
  { send_email := fun _ _ _ _ _ => Except.ok { success := true, detail := "sent" }
    send_sms := fun _ _ _ _ => Except.ok { success := true, detail := "sent" } }

/-- A dispatcher whose sends always return `success=false` (the transient,
non-raising failure shape of `send_email` / `send_sms`). -/
def msgFail : Messaging :=
  { send_email := fun _ _ _ _ _ => Except.ok { success := false, detail := "smtp 500" }
    send_sms := fun _ _ _ _ => Except.ok { success := false, detail := "sms 500" } }

/-- A dispatcher whose sends raise an exception. -/
def msgRaise : Messaging :=
  { send_email := fun _ _ _ _ _ => Except.error "ConnectionError"
    send_sms := fun _ _ _ _ => Except.error "ConnectionError" }

/-- State after registering the demo lead at time 0 against the two-step
template store: one active campaign `campaign_L1_1` at step 0. -/
def demoState : NurturingState :=
  (nurtureLead (initState demoTemplates) demoLeadData 0).1

/-- Same registration against the one-step template store. -/
def demoStateOne : NurturingState :=
  (nurtureLead (initState demoTemplatesOne) demoLeadData 0).1

/-- Project the campaign at `cid` out of an engine-step result, taking the
state unchanged when the step raised (for concrete evaluations only). -/
def campaignAfter (r : Except String NurturingState) (cid : String) : Option Campaign :=
  match r with
  | Except.ok st => alookup st.campaigns cid
  | Except.error _ => none

/-- The step indices of the successful entries of a campaign's
`completed_steps` log. -/
def succIndices (c : Campaign) : List Nat :=
  (c.completed_steps.filter (fun e => e.success)).map (fun e => e.step)

/-- The possible effects of `_execute_campaign_step` on the campaign value at
its id: either the exception handler marked it failed (log and cursor
untouched), or the step executed: one log entry carrying the old cursor is
appended, the cursor advances by one, and the status either becomes
`completed` or is left as it was. -/
def execShape (c c2 : Campaign) : Prop :=
  (c2.current_step = c.current_step ∧ c2.completed_steps = c.completed_steps ∧
    c2.status = Status.failed)
  ∨ ∃ e : CompletedStep, e.step = c.current_step ∧
      c2.completed_steps = c.completed_steps ++ [e] ∧
      c2.current_step = c.current_step + 1 ∧
      (c2.status = Status.completed ∨ c2.status = c.status)

/-- Status changes one campaign can undergo during a single engine pass:
unchanged, or — only from `active` — whatever `_execute_campaign_step` sets,
which is never `paused`. -/
def tickR (s s' : Status) : Prop :=
  s' = s ∨ (s = Status.active ∧ s' ≠ Status.paused)

/-- The per-step status transition soundness test of the campaign state
machine: terminal states are preserved, `paused` may only stay or return to
`active`, and `active` may move anywhere. -/
def statusStepOk : Status → Status → Bool
  | Status.active, _ => true
  | Status.paused, Status.paused => true
  | Status.paused, Status.active => true
  | Status.completed, Status.completed => true
  | Status.failed, Status.failed => true
  | _, _ => false

/-! The contiguous step-log invariant. -/

/-- The `completed_steps` log of a campaign records exactly the step indices
`0, 1, ..., current_step - 1` in order. -/
def StepLogOk (c : Campaign) : Prop :=
  c.completed_steps.map CompletedStep.step = List.range c.current_step

/-- Every stored campaign satisfies `StepLogOk`. -/
def InvLog (st : NurturingState) : Prop :=
  ∀ cid c, alookup st.campaigns cid = some c → StepLogOk c

/-- The operations of the running system named by the state-machine invariant
(§4.5): one engine tick, an operator pause, an operator resume. -/
inductive EngineOp where
  | tick (msg : Messaging) (now : Nat)
  | pause (cid : String) (now : Nat)
  | resume (cid : String) (now : Nat)

/-- Apply one engine/control operation to the state. -/
def applyEngineOp : EngineOp → NurturingState → NurturingState
  | EngineOp.tick msg now, st => processTick msg now st
  | EngineOp.pause cid now, st => (pauseCampaign st cid now).1
  | EngineOp.resume cid now, st => (resumeCampaign st cid now).1

/-- The campaign instance stored for the demo lead right after registration. -/
def demoCampaign0 : Campaign :=
  { lead_id := "L1", template := "welcome_series", status := Status.active
    current_step := 0, started_at := 0, next_action_at := 0, completed_steps := [] }

/-- The demo campaign after an operator pause at time 5. -/
def demoCampaignPaused : Campaign :=
  { demoCampaign0 with status := Status.paused, paused_at := some 5 }

/-- Register the demo lead, run one tick whose dispatch reports failure, then
one tick at time 3 whose dispatch succeeds. -/
def cexOps : List SysOp :=
  [SysOp.nurture demoLeadData 0, SysOp.tick msgFail 0, SysOp.tick msgOk 3]

/-- The state reached by `cexOps` from a fresh store. -/
def cexState : NurturingState := runOps cexOps (initState demoTemplates)

/-- Register the demo lead against the one-step template store, then run one
tick whose dispatch reports failure. -/
def cexOneOps : List SysOp :=
  [SysOp.nurture demoLeadData 0, SysOp.tick msgFail 0]

/-- The state reached by `cexOneOps` from a fresh one-step-template store. -/
def cexOneState : NurturingState := runOps cexOneOps (initState demoTemplatesOne)

/-- A lead record that predates a second registration under the same id. -/
def existingLead : Lead :=
  { email := "old@example.com", name := "Old", phone := "1", source := "crm"
    status := "active", created_at := 0, last_contact := some 3
    engagement_score := 5
    campaign_history :=
      [ { campaign_id := "campaign_L1_1", template := "welcome_series"
          started_at := 0, status := Status.completed, completed_at := some 9 } ] }

/-- A store already holding `existingLead` under id `"L1"`. -/
def dupState : NurturingState :=
  { campaign_templates := demoTemplates, leads := [("L1", existingLead)], campaigns := [] }

/-- A one-step re-engagement template (from `_get_default_templates`,
shortened). -/
def reEngagementTpl : Template :=
  { name := "Re-engagement Campaign"
    steps :=
      [ { delay_days := 0, channel := "email", template := "miss_you"
          subject := "We miss you!", content := "Hi, we noticed you have been away." } ] }

/-- A template store in which the `"welcome_series"` name is absent. -/
def noWelcomeState : NurturingState := initState [("re_engagement", reEngagementTpl)]

/-- The lead record stored for the demo lead right after registration. -/
def demoLeadStored : Lead :=
  { email := "ann@example.com", name := "Ann", phone := "", source := "unknown"
    status := "new", created_at := 0, last_contact := none, engagement_score := 0
    campaign_history :=
      [ { campaign_id := "campaign_L1_1", template := "welcome_series"
          started_at := 0, status := Status.active } ] }

/-- The first step of the demo welcome template. -/
def welcomeStep0 : Step :=
  { delay_days := 0, channel := "email", template := "welcome_email"
    subject := "Welcome!", content := "Hi, welcome aboard." }

/-- The failure result produced by `msgFail` for emails. -/
def failResult : DispatchResult := { success := false, detail := "smtp 500" }

/-! Lemmas about the dict operations. -/

theorem alookup_aset {V : Type} :
    ∀ (l : List (String × V)) (k : String) (v : V) (k' : String),
      alookup (aset l k v) k' = if k = k' then some v else alookup l k'
  | [], k, v, k' => by simp [aset, alookup]
  | (pk, pv) :: t, k, v, k' => by
    by_cases h : pk = k
    · subst h
      by_cases h2 : pk = k' <;> simp [aset, alookup, h2]
    · by_cases h2 : pk = k'
      · subst h2
        have hk : ¬ pk = k := h
        have hk' : ¬ k = pk := fun hh => h hh.symm
        simp [aset, alookup, hk, hk']
      · simp [aset, alookup, h, h2, alookup_aset t k v k']

theorem alookup_aset_self {V : Type} (l : List (String × V)) (k : String) (v : V) :
    alookup (aset l k v) k = some v := by
  simp [alookup_aset]

theorem alookup_aset_ne {V : Type} (l : List (String × V)) (k : String) (v : V)
    (k' : String) (h : k ≠ k') : alookup (aset l k v) k' = alookup l k' := by
  simp [alookup_aset, h]

/-! Characterization of one engine step at a campaign id. -/

theorem core_ok_spec {msg : Messaging} {now : Nat} {st : NurturingState}
    {cid : String} {st2 : NurturingState}
    (h : executeStepCore msg now st cid = Except.ok st2) :
    ∃ c c2, alookup st.campaigns cid = some c ∧
      st2.campaigns = aset st.campaigns cid c2 ∧
      ∃ e : CompletedStep, e.step = c.current_step ∧
        c2.completed_steps = c.completed_steps ++ [e] ∧
        c2.current_step = c.current_step + 1 ∧
        (c2.status = Status.completed ∨ c2.status = c.status) := by
  unfold executeStepCore at h
  cases hc : alookup st.campaigns cid with
  | none => simp [hc] at h
  | some campaign =>
  simp only [hc] at h
  cases hl : alookup st.leads campaign.lead_id with
  | none => simp [hl] at h
  | some lead =>
  simp only [hl] at h
  cases ht : alookup st.campaign_templates campaign.template with
  | none => simp [ht] at h
  | some tpl =>
  simp only [ht] at h
  cases hs : tpl.steps[campaign.current_step]? with
  | none => simp [hs] at h
  | some step =>
  simp only [hs] at h
  cases hd : dispatchStep msg lead step with
  | error e => simp [hd] at h
  | ok result =>
  simp only [hd] at h
  by_cases hfin : tpl.steps.length ≤ campaign.current_step + 1
  · simp only [if_pos hfin, Except.ok.injEq] at h
    subst h
    exact ⟨campaign, _, rfl, rfl, _, rfl, rfl, rfl, Or.inl rfl⟩
  · simp only [if_neg hfin, Except.ok.injEq] at h
    subst h
    exact ⟨campaign, _, rfl, rfl, _, rfl, rfl, rfl, Or.inr rfl⟩

theorem exec_ok_spec {msg : Messaging} {now : Nat} {st : NurturingState}
    {cid : String} {st2 : NurturingState}
    (h : executeCampaignStep msg now st cid = Except.ok st2) :
    ∃ c c2, alookup st.campaigns cid = some c ∧
      st2.campaigns = aset st.campaigns cid c2 ∧ execShape c c2 := by
  unfold executeCampaignStep at h
  cases hcore : executeStepCore msg now st cid with
  | ok st3 =>
    rw [hcore] at h
    simp only [Except.ok.injEq] at h
    subst h
    obtain ⟨c, c2, hc, hca, hsh⟩ := core_ok_spec hcore
    exact ⟨c, c2, hc, hca, Or.inr hsh⟩
  | error e =>
    rw [hcore] at h
    cases hc : alookup st.campaigns cid with
    | none => rw [hc] at h; exact absurd h (by simp)
    | some c =>
      rw [hc] at h
      simp only [Except.ok.injEq] at h
      subst h
      exact ⟨c, _, rfl, rfl, Or.inl ⟨rfl, rfl, rfl⟩⟩

/-- A campaign present in the state is always processable: the exception
handler of `_execute_campaign_step` returns normally. -/
theorem exec_ok_of_lookup {msg : Messaging} {now : Nat} {st : NurturingState}
    {cid : String} {c : Campaign} (hc : alookup st.campaigns cid = some c) :
    ∃ st2, executeCampaignStep msg now st cid = Except.ok st2 := by
  unfold executeCampaignStep
  cases hcore : executeStepCore msg now st cid with
  | ok st3 => exact ⟨st3, rfl⟩
  | error e => rw [hc]; exact ⟨_, rfl⟩

/-- Executing one campaign's step leaves every other campaign's stored value
untouched. -/
theorem exec_other_key {msg : Messaging} {now : Nat} {st : NurturingState}
    {cid : String} {st2 : NurturingState}
    (h : executeCampaignStep msg now st cid = Except.ok st2)
    {x : String} (hx : x ≠ cid) :
    alookup st2.campaigns x = alookup st.campaigns x := by
  obtain ⟨c, c2, hc, hca, _⟩ := exec_ok_spec h
  rw [hca, alookup_aset_ne _ _ _ _ (Ne.symm hx)]

/-- The campaign loop of a pass never aborts: every key drawn from the dict is
still present when it is processed, so `_execute_campaign_step` always
returns normally. -/
theorem tickAux_no_abort (msg : Messaging) (now : Nat) :
    ∀ (cids : List String) (st : NurturingState),
      ∃ st', tickAux msg now cids st = Except.ok st'
  | [], st => ⟨st, rfl⟩
  | cid :: rest, st => by
    cases hc : alookup st.campaigns cid with
    | none =>
      obtain ⟨st', h⟩ := tickAux_no_abort msg now rest st
      exact ⟨st', by simp only [tickAux, hc, h]⟩
    | some c =>
      by_cases hdue : isDue now c = true
      · obtain ⟨st2, he⟩ := @exec_ok_of_lookup msg now st cid c hc
        obtain ⟨st', h⟩ := tickAux_no_abort msg now rest st2
        exact ⟨st', by simp only [tickAux, hc, if_pos hdue, he, h]⟩
      · obtain ⟨st', h⟩ := tickAux_no_abort msg now rest st
        exact ⟨st', by simp only [tickAux, hc, if_neg hdue, h]⟩

theorem processTick_eq {msg : Messaging} {now : Nat} {st st' : NurturingState}
    (h : tickAux msg now (st.campaigns.map Prod.fst) st = Except.ok st') :
    processTick msg now st = st' := by
  simp only [processTick, h]

/-- A paused campaign's stored value is untouched by a whole engine pass. -/
theorem tickAux_frozen {msg : Messaging} {now : Nat} {cid : String} {c : Campaign}
    (cids : List String) :
    ∀ {st st' : NurturingState},
      tickAux msg now cids st = Except.ok st' →
      alookup st.campaigns cid = some c → c.status = Status.paused →
      alookup st'.campaigns cid = some c := by
  induction cids with
  | nil =>
    intro st st' h hc _
    cases h
    exact hc
  | cons cid' rest ih =>
    intro st st' h hc hp
    simp only [tickAux] at h
    cases hc' : alookup st.campaigns cid' with
    | none =>
      simp only [hc'] at h
      exact ih h hc hp
    | some c0 =>
      simp only [hc'] at h
      by_cases hdue : isDue now c0 = true
      · rw [if_pos hdue] at h
        by_cases hx : cid' = cid
        · subst hx
          rw [hc] at hc'
          cases hc'
          simp [isDue, hp] at hdue
        · obtain ⟨st2, he⟩ := @exec_ok_of_lookup msg now st cid' c0 hc'
          rw [he] at h
          exact ih h ((exec_other_key he (Ne.symm hx)).trans hc) hp
      · rw [if_neg hdue] at h
        exact ih h hc hp

/-- A paused campaign's stored value is untouched by `_process_campaigns`. -/
theorem processTick_frozen {msg : Messaging} {now : Nat} {st : NurturingState}
    {cid : String} {c : Campaign}
    (hc : alookup st.campaigns cid = some c) (hp : c.status = Status.paused) :
    alookup (processTick msg now st).campaigns cid = some c := by
  obtain ⟨st', h⟩ := tickAux_no_abort msg now (st.campaigns.map Prod.fst) st
  rw [processTick_eq h]
  exact tickAux_frozen _ h hc hp

/-- A paused campaign's stored value is untouched by any sequence of ticks. -/
theorem runTicks_frozen {cid : String} {c : Campaign} :
    ∀ (ticks : List (Messaging × Nat)) {st : NurturingState},
      alookup st.campaigns cid = some c → c.status = Status.paused →
      alookup (runTicks ticks st).campaigns cid = some c
  | [], st, hc, _ => hc
  | (msg, now) :: rest, st, hc, hp =>
    runTicks_frozen rest (processTick_frozen hc hp) hp

/-- Pausing an active campaign stores exactly the paused copy. -/
theorem pause_active_at {st : NurturingState} {cid : String} {now : Nat} {c : Campaign}
    (hc : alookup st.campaigns cid = some c) (ha : c.status = Status.active) :
    alookup ((pauseCampaign st cid now).1).campaigns cid =
      some { c with status := Status.paused, paused_at := some now } := by
  unfold pauseCampaign
  simp only [hc]
  rw [if_pos ha]
  cases hl : alookup st.leads c.lead_id with
  | none => exact alookup_aset_self _ _ _
  | some lead => exact alookup_aset_self _ _ _

theorem tickR_refl (s : Status) : tickR s s := Or.inl rfl

theorem tickR_trans {a b c : Status} (h1 : tickR a b) (h2 : tickR b c) : tickR a c := by
  rcases h1 with h1 | ⟨ha, hb⟩
  · subst h1; exact h2
  · rcases h2 with h2 | ⟨hb', hc⟩
    · subst h2; exact Or.inr ⟨ha, hb⟩
    · exact Or.inr ⟨ha, hc⟩

theorem statusStepOk_refl (s : Status) : statusStepOk s s = true := by
  cases s <;> rfl

theorem tickR_statusStepOk {s s' : Status} (h : tickR s s') :
    statusStepOk s s' = true := by
  rcases h with h | ⟨h, _⟩
  · subst h; exact statusStepOk_refl _
  · subst h; cases s' <;> rfl

/-- Across one engine pass, each stored campaign's step cursor never decreases
and its status moves along `tickR`. -/
theorem tickAux_mono {msg : Messaging} {now : Nat} {cid : String}
    (cids : List String) :
    ∀ {st st' : NurturingState} {c : Campaign},
      tickAux msg now cids st = Except.ok st' →
      alookup st.campaigns cid = some c →
      ∃ c', alookup st'.campaigns cid = some c' ∧
        c.current_step ≤ c'.current_step ∧ tickR c.status c'.status := by
  induction cids with
  | nil =>
    intro st st' c h hc
    cases h
    exact ⟨c, hc, Nat.le_refl _, tickR_refl _⟩
  | cons cid' rest ih =>
    intro st st' c h hc
    simp only [tickAux] at h
    cases hc' : alookup st.campaigns cid' with
    | none =>
      simp only [hc'] at h
      exact ih h hc
    | some c0 =>
      simp only [hc'] at h
      by_cases hdue : isDue now c0 = true
      · rw [if_pos hdue] at h
        obtain ⟨st2, he⟩ := @exec_ok_of_lookup msg now st cid' c0 hc'
        rw [he] at h
        by_cases hx : cid' = cid
        · subst hx
          rw [hc] at hc'
          cases hc'
          have hact : c.status = Status.active := by
            have := of_decide_eq_true hdue
            exact this.1
          obtain ⟨cc, c2, hcc, hca, hsh⟩ := exec_ok_spec he
          rw [hc] at hcc
          cases hcc
          have h2 : alookup st2.campaigns cid' = some c2 := by
            rw [hca]; exact alookup_aset_self _ _ _
          obtain ⟨c', h3, h4, h5⟩ := ih h h2
          refine ⟨c', h3, ?_, ?_⟩
          · rcases hsh with ⟨hstep, _, _⟩ | ⟨e, _, _, hstep, _⟩
            · exact le_trans (le_of_eq hstep.symm) h4
            · exact le_trans (hstep ▸ Nat.le_succ _) h4
          · refine tickR_trans ?_ h5
            rcases hsh with ⟨_, _, hstat⟩ | ⟨e, _, _, _, hstat⟩
            · exact Or.inr ⟨hact, by rw [hstat]; exact fun hh => Status.noConfusion hh⟩
            · rcases hstat with hstat | hstat
              · exact Or.inr ⟨hact, by rw [hstat]; exact fun hh => Status.noConfusion hh⟩
              · exact Or.inl (hstat.trans rfl)
        · exact ih h ((exec_other_key he (Ne.symm hx)).trans hc)
      · rw [if_neg hdue] at h
        exact ih h hc

/-- `_process_campaigns` version of `tickAux_mono`. -/
theorem processTick_mono {msg : Messaging} {now : Nat} {st : NurturingState}
    {cid : String} {c : Campaign} (hc : alookup st.campaigns cid = some c) :
    ∃ c', alookup (processTick msg now st).campaigns cid = some c' ∧
      c.current_step ≤ c'.current_step ∧ tickR c.status c'.status := by
  obtain ⟨st', h⟩ := tickAux_no_abort msg now (st.campaigns.map Prod.fst) st
  rw [processTick_eq h]
  exact tickAux_mono _ h hc

/-- `pause_campaign` either leaves the campaign dict untouched or replaces the
one active target with its paused copy. -/
theorem pause_campaigns_cases (st : NurturingState) (cid : String) (now : Nat) :
    ((pauseCampaign st cid now).1).campaigns = st.campaigns ∨
    ∃ c, alookup st.campaigns cid = some c ∧ c.status = Status.active ∧
      ((pauseCampaign st cid now).1).campaigns =
        aset st.campaigns cid { c with status := Status.paused, paused_at := some now } := by
  unfold pauseCampaign
  cases hc : alookup st.campaigns cid with
  | none => exact Or.inl rfl
  | some c =>
    dsimp only
    by_cases ha : c.status = Status.active
    · rw [if_pos ha]
      cases hl : alookup st.leads c.lead_id with
      | none => exact Or.inr ⟨c, rfl, ha, rfl⟩
      | some lead => exact Or.inr ⟨c, rfl, ha, rfl⟩
    · rw [if_neg ha]
      exact Or.inl rfl

/-- `resume_campaign` either leaves the campaign dict untouched or replaces
the one paused target with its resumed copy. -/
theorem resume_campaigns_cases (st : NurturingState) (cid : String) (now : Nat) :
    ((resumeCampaign st cid now).1).campaigns = st.campaigns ∨
    ∃ c, alookup st.campaigns cid = some c ∧ c.status = Status.paused ∧
      ((resumeCampaign st cid now).1).campaigns =
        aset st.campaigns cid { c with status := Status.active, resumed_at := some now } := by
  unfold resumeCampaign
  cases hc : alookup st.campaigns cid with
  | none => exact Or.inl rfl
  | some c =>
    dsimp only
    by_cases ha : c.status = Status.paused
    · rw [if_pos ha]
      cases hl : alookup st.leads c.lead_id with
      | none => exact Or.inr ⟨c, rfl, ha, rfl⟩
      | some lead => exact Or.inr ⟨c, rfl, ha, rfl⟩
    · rw [if_neg ha]
      exact Or.inl rfl

/-- `nurture_lead` either leaves the campaign dict untouched (template
missing) or adds one fresh instance at step 0 with an empty log. -/
theorem nurture_campaigns_cases (st : NurturingState) (ld : LeadData) (now : Nat) :
    ((nurtureLead st ld now).1).campaigns = st.campaigns ∨
    ∃ cid camp, camp.current_step = 0 ∧ camp.completed_steps = [] ∧
      camp.status = Status.active ∧
      ((nurtureLead st ld now).1).campaigns = aset st.campaigns cid camp := by
  unfold nurtureLead startCampaign
  by_cases ht : (alookup st.campaign_templates "welcome_series").isNone = true
  · left
    dsimp only
    rw [if_pos ht]
  · right
    refine ⟨"campaign_" ++ ld.id ++ "_" ++ toString ((freshLead ld now).campaign_history.length + 1),
      { lead_id := ld.id, template := "welcome_series", status := Status.active,
        current_step := 0, started_at := now, next_action_at := now,
        completed_steps := [] }, rfl, rfl, rfl, ?_⟩
    dsimp only
    rw [if_neg ht, alookup_aset_self]

theorem execShape_log {c c2 : Campaign} (h : execShape c c2) (hc : StepLogOk c) :
    StepLogOk c2 := by
  unfold StepLogOk at *
  rcases h with ⟨h1, h2, _⟩ | ⟨e, he, h2, h3, _⟩
  · rw [h1, h2]; exact hc
  · rw [h2, h3, List.map_append, hc, List.range_succ]
    simp [he]

theorem exec_inv {msg : Messaging} {now : Nat} {st : NurturingState}
    {cid : String} {st2 : NurturingState}
    (h : executeCampaignStep msg now st cid = Except.ok st2)
    (hinv : InvLog st) : InvLog st2 := by
  obtain ⟨c, c2, hc, hca, hsh⟩ := exec_ok_spec h
  intro x cx hx
  rw [hca, alookup_aset] at hx
  by_cases hxe : cid = x
  · rw [if_pos hxe] at hx
    cases hx
    exact execShape_log hsh (hinv _ _ (hxe ▸ hc))
  · rw [if_neg hxe] at hx
    exact hinv _ _ hx

theorem tickAux_inv {msg : Messaging} {now : Nat} (cids : List String) :
    ∀ {st st' : NurturingState},
      tickAux msg now cids st = Except.ok st' → InvLog st → InvLog st' := by
  induction cids with
  | nil =>
    intro st st' h hinv
    cases h
    exact hinv
  | cons cid rest ih =>
    intro st st' h hinv
    simp only [tickAux] at h
    cases hc : alookup st.campaigns cid with
    | none =>
      simp only [hc] at h
      exact ih h hinv
    | some c =>
      simp only [hc] at h
      by_cases hdue : isDue now c = true
      · rw [if_pos hdue] at h
        obtain ⟨st2, he⟩ := @exec_ok_of_lookup msg now st cid c hc
        rw [he] at h
        exact ih h (exec_inv he hinv)
      · rw [if_neg hdue] at h
        exact ih h hinv

theorem processTick_inv {msg : Messaging} {now : Nat} {st : NurturingState}
    (hinv : InvLog st) : InvLog (processTick msg now st) := by
  obtain ⟨st', h⟩ := tickAux_no_abort msg now (st.campaigns.map Prod.fst) st
  rw [processTick_eq h]
  exact tickAux_inv _ h hinv

theorem aset_inv_of_shape {st : NurturingState} {cid : String} {c2 : Campaign}
    (cs : List (String × Campaign)) (hinv : InvLog st)
    (hcs : cs = aset st.campaigns cid c2) (h2 : StepLogOk c2) :
    ∀ x cx, alookup cs x = some cx → StepLogOk cx := by
  intro x cx hx
  rw [hcs, alookup_aset] at hx
  by_cases hxe : cid = x
  · rw [if_pos hxe] at hx
    cases hx
    exact h2
  · rw [if_neg hxe] at hx
    exact hinv _ _ hx

theorem applySysOp_inv (op : SysOp) {st : NurturingState} (hinv : InvLog st) :
    InvLog (applySysOp op st) := by
  cases op with
  | tick msg now => exact processTick_inv hinv
  | pause cid now =>
    rcases pause_campaigns_cases st cid now with h | ⟨c, hc, ha, h⟩
    · intro x cx hx
      rw [applySysOp] at hx
      rw [h] at hx
      exact hinv _ _ hx
    · intro x cx hx
      rw [applySysOp] at hx
      exact aset_inv_of_shape _ hinv h (hinv cid c hc) _ _ hx
  | resume cid now =>
    rcases resume_campaigns_cases st cid now with h | ⟨c, hc, ha, h⟩
    · intro x cx hx
      rw [applySysOp] at hx
      rw [h] at hx
      exact hinv _ _ hx
    · intro x cx hx
      rw [applySysOp] at hx
      exact aset_inv_of_shape _ hinv h (hinv cid c hc) _ _ hx
  | nurture ld now =>
    rcases nurture_campaigns_cases st ld now with h | ⟨cid, camp, h0, hlog, _, h⟩
    · intro x cx hx
      rw [applySysOp] at hx
      rw [h] at hx
      exact hinv _ _ hx
    · intro x cx hx
      rw [applySysOp] at hx
      refine aset_inv_of_shape _ hinv h ?_ _ _ hx
      unfold StepLogOk
      rw [h0, hlog]
      rfl

theorem runOps_inv (ops : List SysOp) :
    ∀ {st : NurturingState}, InvLog st → InvLog (runOps ops st) := by
  induction ops with
  | nil => intro st hinv; exact hinv
  | cons op rest ih => intro st hinv; exact ih (applySysOp_inv op hinv)

theorem initState_inv (tmpls : List (String × Template)) : InvLog (initState tmpls) := by
  intro cid c hc
  cases hc

/-! Claim theorems. -/

/-- C1 counterexample: in the demo state the current step's dispatch returns
`success=false` (the log gains one failure entry), yet `current_step` moves
from 0 to 1 — the failed step is not retried, refuting the claim that a
failed dispatch leaves `current_step_index` unchanged. -/
theorem failed_dispatch_retry_cex :
    (campaignAfter (executeCampaignStep msgFail 0 demoState "campaign_L1_1")
       "campaign_L1_1").map Campaign.current_step = some 1 ∧
    (alookup demoState.campaigns "campaign_L1_1").map Campaign.current_step = some 0 ∧
    (campaignAfter (executeCampaignStep msgFail 0 demoState "campaign_L1_1")
       "campaign_L1_1").map (fun c => c.completed_steps.map (fun e => e.success)) =
      some [false] := by
  decide

/-- C1 (amended): when the dispatcher returns a non-raising `success=false`
result for the current step, `_execute_campaign_step` appends the failure to
`completed_steps` but still increments `current_step_index` — the failed
step is skipped, not retried. -/
theorem failed_dispatch_advances_step
    (msg : Messaging) (now : Nat) (st : NurturingState) (cid : String)
    (c : Campaign) (lead : Lead) (tpl : Template) (s : Step) (r : DispatchResult)
    (hc : alookup st.campaigns cid = some c)
    (hl : alookup st.leads c.lead_id = some lead)
    (ht : alookup st.campaign_templates c.template = some tpl)
    (hs : tpl.steps[c.current_step]? = some s)
    (hd : dispatchStep msg lead s = Except.ok r)
    (hr : r.success = false) :
    ∃ st2 c2, executeCampaignStep msg now st cid = Except.ok st2 ∧
      alookup st2.campaigns cid = some c2 ∧
      c2.current_step = c.current_step + 1 ∧
      c2.completed_steps = c.completed_steps ++
        [{ step := c.current_step, executed_at := now, success := false, details := r }] := by
  unfold executeCampaignStep executeStepCore
  simp only [hc, hl, ht, hs, hd]
  by_cases hfin : tpl.steps.length ≤ c.current_step + 1
  · rw [if_pos hfin]
    refine ⟨_, _, rfl, alookup_aset_self _ _ _, rfl, ?_⟩
    simp [hr]
  · rw [if_neg hfin]
    refine ⟨_, _, rfl, alookup_aset_self _ _ _, rfl, ?_⟩
    simp [hr]

/-- Witness for `failed_dispatch_advances_step` at the demo state. -/
theorem failed_dispatch_advances_step_wit :
    ∃ st2 c2, executeCampaignStep msgFail 0 demoState "campaign_L1_1" = Except.ok st2 ∧
      alookup st2.campaigns "campaign_L1_1" = some c2 ∧
      c2.current_step = demoCampaign0.current_step + 1 ∧
      c2.completed_steps = demoCampaign0.completed_steps ++
        [{ step := demoCampaign0.current_step, executed_at := 0, success := false
           details := { success := false, detail := "smtp 500" } }] :=
  failed_dispatch_advances_step msgFail 0 demoState "campaign_L1_1" demoCampaign0
    demoLeadStored welcomeTpl welcomeStep0 failResult
    (by decide) (by decide) (by decide) (by decide) rfl rfl

/-- C2 counterexample: a dispatcher exception leaves the instance `failed`
with an empty log, while a `success=false` result leaves it `active` with one
log entry and an advanced cursor — the two outcomes are different states and
the instance does not stay active. -/
theorem dispatcher_exception_state_cex :
    (campaignAfter (executeCampaignStep msgRaise 0 demoState "campaign_L1_1")
       "campaign_L1_1").map Campaign.status = some Status.failed ∧
    (campaignAfter (executeCampaignStep msgFail 0 demoState "campaign_L1_1")
       "campaign_L1_1").map Campaign.status = some Status.active ∧
    (campaignAfter (executeCampaignStep msgRaise 0 demoState "campaign_L1_1")
       "campaign_L1_1").map (fun c => c.completed_steps.length) = some 0 ∧
    (campaignAfter (executeCampaignStep msgFail 0 demoState "campaign_L1_1")
       "campaign_L1_1").map (fun c => c.completed_steps.length) = some 1 := by
  decide

/-- C2 (amended): an exception raised during step execution is caught by
`_execute_campaign_step` and never propagates (the call returns normally),
but instead of being treated like `success=false` it marks the instance
`failed` with the error recorded — a terminal state, not a retry. -/
theorem dispatcher_exception_marks_failed
    (msg : Messaging) (now : Nat) (st : NurturingState) (cid : String)
    (c : Campaign) (e : String)
    (hc : alookup st.campaigns cid = some c)
    (hcore : executeStepCore msg now st cid = Except.error e) :
    executeCampaignStep msg now st cid =
      Except.ok { st with campaigns := aset st.campaigns cid { c with status := Status.failed, error := some e } } := by
  unfold executeCampaignStep
  rw [hcore]
  simp only [hc]

/-- Witness for `dispatcher_exception_marks_failed`: the raising dispatcher at
the demo state. -/
theorem dispatcher_exception_marks_failed_wit :
    executeCampaignStep msgRaise 0 demoState "campaign_L1_1" =
      Except.ok { demoState with campaigns := aset demoState.campaigns "campaign_L1_1" { demoCampaign0 with status := Status.failed, error := some "ConnectionError" } } :=
  dispatcher_exception_marks_failed msgRaise 0 demoState "campaign_L1_1"
    demoCampaign0 "ConnectionError" (by decide) rfl

/-- C3 counterexample: registering lead data whose id `"L1"` already exists in
the store raises no `DuplicateLead` error — the call reports success and the
stored record is replaced (its engagement score drops from 5 back to 0). -/
theorem duplicate_lead_overwrite_cex :
    (nurtureLead dupState demoLeadData 10).2.success = true ∧
    (alookup (nurtureLead dupState demoLeadData 10).1.leads "L1").map
      Lead.engagement_score = some 0 ∧
    (alookup dupState.leads "L1").map Lead.engagement_score = some 5 := by
  decide

/-- C3 (amended): `nurture_lead` performs no duplicate check: when the lead id
already exists (and the welcome template is loaded) the call succeeds and the
stored record is unconditionally overwritten with a fresh record — engagement
reset to 0, history reduced to the new welcome campaign, contact fields taken
from the new request. -/
theorem nurture_overwrites_existing_lead
    (st : NurturingState) (ld : LeadData) (now : Nat) (old : Lead)
    (hold : alookup st.leads ld.id = some old)
    (ht : (alookup st.campaign_templates "welcome_series").isNone = false) :
    (nurtureLead st ld now).2.success = true ∧
    ∃ l, alookup (nurtureLead st ld now).1.leads ld.id = some l ∧
      l.engagement_score = 0 ∧ l.created_at = now ∧ l.email = ld.email ∧
      l.campaign_history.map HistoryEntry.template = ["welcome_series"] := by
  unfold nurtureLead startCampaign
  dsimp only
  simp only [ht, Bool.false_eq_true, if_false]
  rw [alookup_aset_self]
  exact ⟨by trivial, _, alookup_aset_self _ _ _, by trivial, by trivial, by trivial, by trivial⟩

/-- Witness for `nurture_overwrites_existing_lead` at the duplicate store. -/
theorem nurture_overwrites_existing_lead_wit :
    (nurtureLead dupState demoLeadData 10).2.success = true ∧
    ∃ l, alookup (nurtureLead dupState demoLeadData 10).1.leads "L1" = some l ∧
      l.engagement_score = 0 ∧ l.created_at = 10 ∧ l.email = demoLeadData.email ∧
      l.campaign_history.map HistoryEntry.template = ["welcome_series"] :=
  nurture_overwrites_existing_lead dupState demoLeadData 10 existingLead
    (by decide) (by decide)

/-- C4 counterexample: in the reachable state `cexState` (register, one tick
whose dispatch fails, one tick whose dispatch succeeds) the successful
entries of `completed_steps` carry step indices `[1]`, which does not start
at 0 — the failed step 0 was skipped, so the successful subsequence has a
gap. -/
theorem successful_step_gap_cex :
    (alookup cexState.campaigns "campaign_L1_1").map succIndices = some [1] ∧
    ([1] : List Nat) ≠ List.range ([1] : List Nat).length := by
  constructor
  · decide
  · decide

/-- C4 (amended): for every reachable campaign instance it is the *full*
`completed_steps` log — successful and failed entries alike — whose step
indices are exactly `0, 1, ..., length-1`, strictly increasing with no gaps;
the successful-only subsequence can skip indices because failed dispatches
also advance the cursor. -/
theorem completed_step_indices_contiguous
    (tmpls : List (String × Template)) (ops : List SysOp) (cid : String) (c : Campaign)
    (hc : alookup (runOps ops (initState tmpls)).campaigns cid = some c) :
    c.completed_steps.map CompletedStep.step = List.range c.completed_steps.length := by
  have hlog : StepLogOk c := runOps_inv ops (initState_inv tmpls) _ _ hc
  unfold StepLogOk at hlog
  have hlen : c.completed_steps.length = c.current_step := by
    have h2 := congrArg List.length hlog
    simpa using h2
  rw [hlog, hlen]

/-- Witness for `completed_step_indices_contiguous` right after registration. -/
theorem completed_step_indices_contiguous_wit :
    demoCampaign0.completed_steps.map CompletedStep.step =
      List.range demoCampaign0.completed_steps.length :=
  completed_step_indices_contiguous demoTemplates [SysOp.nurture demoLeadData 0]
    "campaign_L1_1" demoCampaign0 (by decide)

/-- C5 counterexample: against a one-step template, the tick whose dispatch
returns `success=false` still completes the campaign — status is `completed`
although zero step dispatches succeeded. -/
theorem completion_without_success_cex :
    (alookup cexOneState.campaigns "campaign_L1_1").map Campaign.status =
      some Status.completed ∧
    (alookup cexOneState.campaigns "campaign_L1_1").map succIndices = some [] := by
  constructor
  · decide
  · decide

/-- C5 (amended): an active instance with a K-step template becomes
`completed` exactly when its K-th step *execution* finishes without an
exception — regardless of whether that dispatch reported success — and a
completed instance never satisfies the due test used by the tick loop. -/
theorem completion_at_kth_execution
    (msg : Messaging) (now : Nat) (st : NurturingState) (cid : String)
    (c : Campaign) (tpl : Template) (st2 : NurturingState)
    (hc : alookup st.campaigns cid = some c)
    (ha : c.status = Status.active)
    (ht : alookup st.campaign_templates c.template = some tpl)
    (hcore : executeStepCore msg now st cid = Except.ok st2) :
    ∃ c2, alookup st2.campaigns cid = some c2 ∧
      c2.current_step = c.current_step + 1 ∧
      (c2.status = Status.completed ↔ tpl.steps.length ≤ c.current_step + 1) ∧
      (∀ m, c2.status = Status.completed → isDue m c2 = false) := by
  unfold executeStepCore at hcore
  simp only [hc] at hcore
  cases hl : alookup st.leads c.lead_id with
  | none => simp [hl] at hcore
  | some lead =>
  simp only [hl] at hcore
  simp only [ht] at hcore
  cases hs : tpl.steps[c.current_step]? with
  | none => simp [hs] at hcore
  | some s =>
  simp only [hs] at hcore
  cases hd : dispatchStep msg lead s with
  | error e => simp [hd] at hcore
  | ok r =>
  simp only [hd] at hcore
  by_cases hfin : tpl.steps.length ≤ c.current_step + 1
  · simp only [if_pos hfin, Except.ok.injEq] at hcore
    subst hcore
    refine ⟨_, alookup_aset_self _ _ _, rfl, ?_, ?_⟩
    · exact ⟨fun _ => hfin, fun _ => rfl⟩
    · intro m _
      simp [isDue]
  · simp only [if_neg hfin, Except.ok.injEq] at hcore
    subst hcore
    refine ⟨_, alookup_aset_self _ _ _, rfl, ?_, ?_⟩
    · constructor
      · intro hcomp
        exact absurd (ha.symm.trans hcomp) (by decide)
      · intro h2
        exact absurd h2 hfin
    · intro m hcomp
      exact absurd (ha.symm.trans hcomp) (by decide)

/-- Witness for `completion_at_kth_execution`: the one-step demo state with
the failing dispatcher, whose single execution completes the campaign. -/
theorem completion_at_kth_execution_wit :
    ∃ c2, alookup
        (match executeStepCore msgFail 0 demoStateOne "campaign_L1_1" with
          | Except.ok s => s
          | Except.error _ => demoStateOne).campaigns "campaign_L1_1" = some c2 ∧
      c2.current_step = demoCampaign0.current_step + 1 ∧
      (c2.status = Status.completed ↔
        welcomeTplOne.steps.length ≤ demoCampaign0.current_step + 1) ∧
      (∀ m, c2.status = Status.completed → isDue m c2 = false) :=
  completion_at_kth_execution msgFail 0 demoStateOne "campaign_L1_1" demoCampaign0
    welcomeTplOne _ (by decide) (by decide) (by decide) rfl

/-- C6 (confirmed): pausing an active instance freezes it — after any
sequence of subsequent ticks (any dispatchers, any times) the stored value
still has the same `current_step` and `completed_steps` and is still
`paused`; only `resume` can change that. -/
theorem pause_freezes_progression
    (st : NurturingState) (cid : String) (now : Nat) (c : Campaign)
    (hc : alookup st.campaigns cid = some c) (ha : c.status = Status.active)
    (ticks : List (Messaging × Nat)) :
    ∃ c', alookup (runTicks ticks (pauseCampaign st cid now).1).campaigns cid = some c' ∧
      c'.current_step = c.current_step ∧ c'.completed_steps = c.completed_steps ∧
      c'.status = Status.paused := by
  exact ⟨{ c with status := Status.paused, paused_at := some now },
    runTicks_frozen ticks (pause_active_at hc ha) rfl, rfl, rfl, rfl⟩

/-- Witness for `pause_freezes_progression`: pause the demo campaign, then
run one successful-dispatch tick. -/
theorem pause_freezes_progression_wit :
    ∃ c', alookup (runTicks [(msgOk, 9)]
        (pauseCampaign demoState "campaign_L1_1" 5).1).campaigns "campaign_L1_1" = some c' ∧
      c'.current_step = demoCampaign0.current_step ∧
      c'.completed_steps = demoCampaign0.completed_steps ∧
      c'.status = Status.paused :=
  pause_freezes_progression demoState "campaign_L1_1" 5 demoCampaign0
    (by decide) (by decide) [(msgOk, 9)]

/-- C7 (confirmed): the campaign loop of a tick never aborts — every error
while processing one instance is caught at that instance's boundary inside
`_execute_campaign_step`, so the iteration reaches every remaining due
instance and the loop body returns normally, letting the tick loop continue
to the next interval (`processTick` yields exactly the completed pass). -/
theorem tick_survives_instance_errors (msg : Messaging) (now : Nat) (st : NurturingState) :
    ∃ st', tickAux msg now (st.campaigns.map Prod.fst) st = Except.ok st' ∧
      processTick msg now st = st' := by
  obtain ⟨st', h⟩ := tickAux_no_abort msg now (st.campaigns.map Prod.fst) st
  exact ⟨st', h, processTick_eq h⟩

/-- C8 (confirmed): `pause_campaign` reports success only on an `active`
instance and `resume_campaign` only on a `paused` one; on any other stored
status, and on an unknown id, both return a `success=false` response carrying
an error message and leave the state untouched. Both operations are total
functions of the state — the source wraps every path in `try/except`, so no
exception reaches the caller. -/
theorem pause_resume_transition_guards (st : NurturingState) (cid : String) (now : Nat) :
    ((pauseCampaign st cid now).2.success = true →
       ∃ c, alookup st.campaigns cid = some c ∧ c.status = Status.active) ∧
    ((resumeCampaign st cid now).2.success = true →
       ∃ c, alookup st.campaigns cid = some c ∧ c.status = Status.paused) ∧
    (∀ c, alookup st.campaigns cid = some c → c.status ≠ Status.active →
       (pauseCampaign st cid now).2.success = false ∧
       (pauseCampaign st cid now).2.error.isSome = true ∧
       (pauseCampaign st cid now).1 = st) ∧
    (∀ c, alookup st.campaigns cid = some c → c.status ≠ Status.paused →
       (resumeCampaign st cid now).2.success = false ∧
       (resumeCampaign st cid now).2.error.isSome = true ∧
       (resumeCampaign st cid now).1 = st) ∧
    (alookup st.campaigns cid = none →
       (pauseCampaign st cid now).2.success = false ∧
       (pauseCampaign st cid now).2.error.isSome = true ∧
       (pauseCampaign st cid now).1 = st ∧
       (resumeCampaign st cid now).2.success = false ∧
       (resumeCampaign st cid now).2.error.isSome = true ∧
       (resumeCampaign st cid now).1 = st) := by
  refine ⟨?_, ?_, ?_, ?_, ?_⟩
  · intro h
    unfold pauseCampaign at h
    cases hc : alookup st.campaigns cid with
    | none => simp [hc] at h
    | some c =>
      simp only [hc] at h
      by_cases ha : c.status = Status.active
      · exact ⟨c, rfl, ha⟩
      · rw [if_neg ha] at h
        simp at h
  · intro h
    unfold resumeCampaign at h
    cases hc : alookup st.campaigns cid with
    | none => simp [hc] at h
    | some c =>
      simp only [hc] at h
      by_cases ha : c.status = Status.paused
      · exact ⟨c, rfl, ha⟩
      · rw [if_neg ha] at h
        simp at h
  · intro c hc hna
    unfold pauseCampaign
    simp only [hc]
    rw [if_neg hna]
    exact ⟨rfl, rfl, rfl⟩
  · intro c hc hna
    unfold resumeCampaign
    simp only [hc]
    rw [if_neg hna]
    exact ⟨rfl, rfl, rfl⟩
  · intro hc
    unfold pauseCampaign resumeCampaign
    simp [hc]

/-- Witness for `pause_resume_transition_guards`: resuming the active demo
campaign is rejected without mutating the state. -/
theorem pause_resume_transition_guards_wit :
    (resumeCampaign demoState "campaign_L1_1" 5).2.success = false ∧
    (resumeCampaign demoState "campaign_L1_1" 5).2.error.isSome = true ∧
    (resumeCampaign demoState "campaign_L1_1" 5).1 = demoState :=
  (pause_resume_transition_guards demoState "campaign_L1_1" 5).2.2.2.1
    demoCampaign0 (by decide) (by decide)

/-- C9 (confirmed): across each operation named by the invariant — one engine
tick, an operator pause, an operator resume — a stored campaign's
`current_step` never decreases, and its status moves only along the sound
transition relation: terminal `completed`/`failed` are preserved, and only
the `active`/`paused` pair can alternate. -/
theorem step_monotone_and_status_sound
    (op : EngineOp) (st : NurturingState) (cid : String) (c c' : Campaign)
    (hc : alookup st.campaigns cid = some c)
    (hc' : alookup (applyEngineOp op st).campaigns cid = some c') :
    c.current_step ≤ c'.current_step ∧ statusStepOk c.status c'.status = true := by
  cases op with
  | tick msg now =>
    simp only [applyEngineOp] at hc'
    obtain ⟨c2, h2, hle, hr⟩ := @processTick_mono msg now st cid c hc
    rw [h2] at hc'
    injection hc' with h3
    subst h3
    exact ⟨hle, tickR_statusStepOk hr⟩
  | pause cid0 now =>
    simp only [applyEngineOp] at hc'
    rcases pause_campaigns_cases st cid0 now with h | ⟨c0, hc0, ha0, h⟩
    · rw [h, hc] at hc'
      injection hc' with h3
      subst h3
      exact ⟨Nat.le_refl _, statusStepOk_refl _⟩
    · rw [h, alookup_aset] at hc'
      by_cases hx : cid0 = cid
      · rw [if_pos hx] at hc'
        injection hc' with h3
        subst hx
        rw [hc] at hc0
        injection hc0 with h4
        subst h4
        subst h3
        refine ⟨Nat.le_refl _, ?_⟩
        rw [ha0]
        rfl
      · rw [if_neg hx, hc] at hc'
        injection hc' with h3
        subst h3
        exact ⟨Nat.le_refl _, statusStepOk_refl _⟩
  | resume cid0 now =>
    simp only [applyEngineOp] at hc'
    rcases resume_campaigns_cases st cid0 now with h | ⟨c0, hc0, ha0, h⟩
    · rw [h, hc] at hc'
      injection hc' with h3
      subst h3
      exact ⟨Nat.le_refl _, statusStepOk_refl _⟩
    · rw [h, alookup_aset] at hc'
      by_cases hx : cid0 = cid
      · rw [if_pos hx] at hc'
        injection hc' with h3
        subst hx
        rw [hc] at hc0
        injection hc0 with h4
        subst h4
        subst h3
        refine ⟨Nat.le_refl _, ?_⟩
        rw [ha0]
        rfl
      · rw [if_neg hx, hc] at hc'
        injection hc' with h3
        subst h3
        exact ⟨Nat.le_refl _, statusStepOk_refl _⟩

/-- Witness for `step_monotone_and_status_sound`: pausing the demo campaign. -/
theorem step_monotone_and_status_sound_wit :
    demoCampaign0.current_step ≤ demoCampaignPaused.current_step ∧
    statusStepOk demoCampaign0.status demoCampaignPaused.status = true :=
  step_monotone_and_status_sound (EngineOp.pause "campaign_L1_1" 5) demoState
    "campaign_L1_1" demoCampaign0 demoCampaignPaused (by decide) (by decide)

/-- C10 (confirmed): `nurture_lead` is not atomic on error — with a template
store lacking `"welcome_series"`, registering a fresh lead returns
`success=false` with an error message, yet the lead record has already been
written and remains in the store with an empty campaign history, while no
campaign instance was created. -/
theorem nurture_lead_not_atomic_on_template_missing :
    (nurtureLead noWelcomeState demoLeadData 7).2.success = false ∧
    (nurtureLead noWelcomeState demoLeadData 7).2.error.isSome = true ∧
    alookup (nurtureLead noWelcomeState demoLeadData 7).1.leads "L1" =
      some (freshLead demoLeadData 7) ∧
    (freshLead demoLeadData 7).campaign_history = [] ∧
    (nurtureLead noWelcomeState demoLeadData 7).1.campaigns = [] := by
  decide

end LeadNurturing
